import Mathlib

/-!
Verification development for the WyreStorm NetworkHD Home Assistant
integration (repository `wyrestorm-networkhd-ha`).

The repository contains two generations of the integration:
* `custom_components/wyrestorm_networkhd` — the first generation, whose
  coordinator (`coordinator.py`) works on plain dictionaries; and
* `custom_components/wyrestorm_networkhd_2` — the second generation, whose
  coordinator works on the typed dataclasses of
  `models/device_receiver_transmitter.py` and `models/coordinator.py`,
  with the pure merge helpers in `_utils_coordinator.py`.

This file gives a shallow embedding of the pure data-processing parts of
both generations.  Python dictionaries keyed by strings are embedded as
association lists (`List (String × α)`) with Python's assignment
semantics (`upsert` overwrites in place, otherwise appends); a Python
value that may be absent (`dict.get`, attributes that may be missing) is
an `Option`; Python exceptions raised by pure code are `Except`.
-/

namespace WyreStorm

/-! ### Association lists as Python dicts -/

/-- Lookup in an association list: `m.get(key)` on a Python dict. -/
def lookupS {α : Type} : List (String × α) → String → Option α
  | [], _ => none
  | (k, v) :: rest, key => if k = key then some v else lookupS rest key

/-- `m[key] = v` on a Python dict: overwrite in place if the key is
present (keeping its position), otherwise append at the end. -/
def upsert {α : Type} (k : String) (v : α) : List (String × α) → List (String × α)
  | [] => [(k, v)]
  | (k', v') :: rest => if k' = k then (k, v) :: rest else (k', v') :: upsert k v rest

/-- Python `str.lower()` (per-character lowering, as `String.toLower`
does, but phrased over the character list so that concrete instances
reduce in the kernel). -/
def strToLower (s : String) : String := ⟨s.data.map Char.toLower⟩

/-- `needle` is a prefix of the second list. -/
def prefixOfCL : List Char → List Char → Bool
  | [], _ => true
  | _ :: _, [] => false
  | a :: as, b :: bs => a == b && prefixOfCL as bs

/-- `needle` occurs as a contiguous substring of the second list. -/
def containsCL (needle : List Char) : List Char → Bool
  | [] => prefixOfCL needle []
  | c :: rest => prefixOfCL needle (c :: rest) || containsCL needle rest

namespace NHD2

/-- Identity record (`DeviceJsonString`): one element of the "device
JSON" query result. -/
structure DeviceJsonString where
  aliasName : String
  trueName : String
  deviceType : String
  ip : String
  online : Bool
  sequence : Int
  /-- RX-only field, absent on transmitters. -/
  txName : Option String := none
  /-- TX-only field, absent on receivers. -/
  nameoverlay : Option Bool := none
deriving DecidableEq

/-- Status record (`DeviceStatus`): one element of the "device status"
query result, fields as read by `create_device_from_wyrestorm_models`. -/
structure DeviceStatus where
  name : String
  line_out_audio_enable : Option Bool := none
  stream_frame_rate : Option Int := none
  stream_resolution : Option String := none
  audio_bitrate : Option Int := none
  audio_input_format : Option String := none
  hdcp_status : Option String := none
  hdmi_out_active : Option Bool := none
  hdmi_out_audio_enable : Option Bool := none
  hdmi_out_frame_rate : Option Int := none
  hdmi_out_resolution : Option String := none
  stream_error_count : Option Int := none
  audio_stream_ip_address : Option String := none
  encoding_enable : Option Bool := none
  hdmi_in_active : Option Bool := none
  hdmi_in_frame_rate : Option Int := none
  resolution : Option String := none
  video_stream_ip_address : Option String := none
deriving DecidableEq

/-- Static-info record (`DeviceInfo`): one element of the "device info"
query result, fields as read by `create_device_from_wyrestorm_models`. -/
structure DeviceInfo where
  name : String
  mac : String
  gateway : String
  netmask : String
  version : String
  edid : String
  ip_mode : String
  sourcein : Option String := none
  analog_audio_source : Option String := none
  hdmi_audio_source : Option String := none
  video_mode : Option String := none
  video_stretch_type : Option String := none
  video_timing : Option String := none
  audio_input_type : Option String := none
  analog_audio_direction : Option String := none
  bandwidth_adjust_mode : Option Int := none
  bit_perpixel : Option Int := none
  color_space : Option String := none
  stream0_enable : Option Bool := none
  stream0fps_by2_enable : Option Bool := none
  stream1_enable : Option Bool := none
  stream1_scale : Option String := none
  stream1fps_by2_enable : Option Bool := none
  video_input : Option Bool := none
  video_source : Option String := none
deriving DecidableEq

/-- `DeviceBase` of `models/device_receiver_transmitter.py`. -/
structure DeviceBase where
  alias_name : String
  true_name : String
  device_type : String
  ip : String
  online : Bool
  sequence : Int
  mac : String
  gateway : String
  netmask : String
  version : String
  edid : String
  ip_mode : String
  line_out_audio_enable : Option Bool := none
  stream_frame_rate : Option Int := none
  stream_resolution : Option String := none
deriving DecidableEq

/-- `DeviceReceiver`: the receiver-specific dataclass fields. -/
structure ReceiverFields where
  tx_name : Option String := none
  audio_bitrate : Option Int := none
  audio_input_format : Option String := none
  hdcp_status : Option String := none
  hdmi_out_active : Option Bool := none
  hdmi_out_audio_enable : Option Bool := none
  hdmi_out_frame_rate : Option Int := none
  hdmi_out_resolution : Option String := none
  stream_error_count : Option Int := none
  sourcein : Option String := none
  analog_audio_source : Option String := none
  hdmi_audio_source : Option String := none
  video_mode : Option String := none
  video_stretch_type : Option String := none
  video_timing : Option String := none
deriving DecidableEq

/-- `DeviceTransmitter`: the transmitter-specific dataclass fields. -/
structure TransmitterFields where
  nameoverlay : Option Bool := none
  audio_stream_ip_address : Option String := none
  encoding_enable : Option Bool := none
  hdmi_in_active : Option Bool := none
  hdmi_in_frame_rate : Option Int := none
  resolution : Option String := none
  video_stream_ip_address : Option String := none
  audio_input_type : Option String := none
  analog_audio_direction : Option String := none
  bandwidth_adjust_mode : Option Int := none
  bit_perpixel : Option Int := none
  color_space : Option String := none
  stream0_enable : Option Bool := none
  stream0fps_by2_enable : Option Bool := none
  stream1_enable : Option Bool := none
  stream1_scale : Option String := none
  stream1fps_by2_enable : Option Bool := none
  video_input : Option Bool := none
  video_source : Option String := none
deriving DecidableEq

/-- A created device: `DeviceReceiver | DeviceTransmitter`. -/
inductive Device
  | rx (base : DeviceBase) (fields : ReceiverFields)
  | tx (base : DeviceBase) (fields : TransmitterFields)
deriving DecidableEq

/-- The shared `DeviceBase` part of a device. -/
def Device.base : Device → DeviceBase
  | .rx b _ => b
  | .tx b _ => b

def Device.device_type (d : Device) : String := d.base.device_type

def Device.true_name (d : Device) : String := d.base.true_name

def Device.alias_name (d : Device) : String := d.base.alias_name

/-- `create_device_from_wyrestorm_models` — the factory of
`models/device_receiver_transmitter.py`.  Builds the common kwargs from
all three records, then dispatches case-insensitively on
`deviceType`; an unknown type raises `ValueError`. -/
def create_device_from_wyrestorm_models (device_json : DeviceJsonString)
    (device_status : DeviceStatus) (device_info : DeviceInfo) : Except String Device :=
  let common : DeviceBase :=
    { alias_name := device_json.aliasName
      true_name := device_json.trueName
      device_type := device_json.deviceType
      ip := device_json.ip
      online := device_json.online
      sequence := device_json.sequence
      mac := device_info.mac
      gateway := device_info.gateway
      netmask := device_info.netmask
      version := device_info.version
      edid := device_info.edid
      ip_mode := device_info.ip_mode
      line_out_audio_enable := device_status.line_out_audio_enable
      stream_frame_rate := device_status.stream_frame_rate
      stream_resolution := device_status.stream_resolution }
  let device_type_lower := strToLower device_json.deviceType
  if device_type_lower = "receiver" then
    .ok (Device.rx common
      { tx_name := device_json.txName
        audio_bitrate := device_status.audio_bitrate
        audio_input_format := device_status.audio_input_format
        hdcp_status := device_status.hdcp_status
        hdmi_out_active := device_status.hdmi_out_active
        hdmi_out_audio_enable := device_status.hdmi_out_audio_enable
        hdmi_out_frame_rate := device_status.hdmi_out_frame_rate
        hdmi_out_resolution := device_status.hdmi_out_resolution
        stream_error_count := device_status.stream_error_count
        sourcein := device_info.sourcein
        analog_audio_source := device_info.analog_audio_source
        hdmi_audio_source := device_info.hdmi_audio_source
        video_mode := device_info.video_mode
        video_stretch_type := device_info.video_stretch_type
        video_timing := device_info.video_timing })
  else if device_type_lower = "transmitter" then
    .ok (Device.tx common
      { nameoverlay := device_json.nameoverlay
        audio_stream_ip_address := device_status.audio_stream_ip_address
        encoding_enable := device_status.encoding_enable
        hdmi_in_active := device_status.hdmi_in_active
        hdmi_in_frame_rate := device_status.hdmi_in_frame_rate
        resolution := device_status.resolution
        video_stream_ip_address := device_status.video_stream_ip_address
        audio_input_type := device_info.audio_input_type
        analog_audio_direction := device_info.analog_audio_direction
        bandwidth_adjust_mode := device_info.bandwidth_adjust_mode
        bit_perpixel := device_info.bit_perpixel
        color_space := device_info.color_space
        stream0_enable := device_info.stream0_enable
        stream0fps_by2_enable := device_info.stream0fps_by2_enable
        stream1_enable := device_info.stream1_enable
        stream1_scale := device_info.stream1_scale
        stream1fps_by2_enable := device_info.stream1fps_by2_enable
        video_input := device_info.video_input
        video_source := device_info.video_source })
  else
    .error ("Unknown device type: " ++ device_json.deviceType)

/-- One step of the loop body of `build_device_collections`
(`_utils_coordinator.py`, lines 29–52): find the first matching status
and info record for the identity record's `trueName`; if both are
present, create the device (a `ValueError` is caught and the record
skipped) and store it under `device.true_name`, in `transmitters` when
`device.device_type == "Transmitter"` (case-sensitive), otherwise in
`receivers`. -/
def buildStep (device_status_list : List DeviceStatus) (device_info_list : List DeviceInfo)
    (acc : List (String × Device) × List (String × Device)) (device_json : DeviceJsonString) :
    List (String × Device) × List (String × Device) :=
  match device_status_list.find? (fun d => d.name = device_json.trueName),
        device_info_list.find? (fun d => d.name = device_json.trueName) with
  | some device_status, some device_info =>
    match create_device_from_wyrestorm_models device_json device_status device_info with
    | .ok device =>
      if device.device_type = "Transmitter" then
        (upsert device.true_name device acc.1, acc.2)
      else
        (acc.1, upsert device.true_name device acc.2)
    | .error _ => acc
  | _, _ => acc

/-- `build_device_collections` of `_utils_coordinator.py`: returns
`(transmitters, receivers)`. -/
def build_device_collections (device_json_list : List DeviceJsonString)
    (device_status_list : List DeviceStatus) (device_info_list : List DeviceInfo) :
    List (String × Device) × List (String × Device) :=
  device_json_list.foldl (buildStep device_status_list device_info_list) ([], [])

/-- A matrix assignment (`rx` is fed by `tx`).  The Python code guards
with `hasattr(assignment, "tx") and hasattr(assignment, "rx")`; in this
typed embedding every assignment carries both fields. -/
structure MatrixAssignment where
  tx : String
  rx : String
deriving DecidableEq

/-- `process_matrix_assignments` of `_utils_coordinator.py`: a `None`
response (or one without an `assignments` attribute) gives the empty
mapping; otherwise each assignment writes `rx ↦ tx` into a dict, in list
order. -/
def process_matrix_assignments (matrix_response : Option (List MatrixAssignment)) :
    List (String × String) :=
  match matrix_response with
  | none => []
  | some assignments => assignments.foldl (fun acc a => upsert a.rx a.tx acc) []

/-- `CoordinatorData` of `models/coordinator.py`, restricted to the
fields the write operations read (the controller record and the
timestamp play no role in any claim and are omitted). -/
structure CoordinatorData where
  device_transmitters : List (String × Device)
  device_receivers : List (String × Device)
  matrix_assignments : List (String × String)
deriving DecidableEq

/-- Observable side effects of a write operation on the coordinator:
transport commands issued and refresh requests. -/
inductive Effect
  | sinkPower (power : String) (rx : String)
  | requestRefresh
deriving DecidableEq

/-- The device-validation step of `set_power` (lines 242–248): when a
snapshot exists, the first requested device that is not a key of
`device_receivers` raises a `ValueError`; with no snapshot the
validation is skipped. -/
def set_power_validation_error (data : Option CoordinatorData) (devices : List String) :
    Option String :=
  match data with
  | none => none
  | some d =>
    match devices.find? (fun device => (lookupS d.device_receivers device).isNone) with
    | some device =>
      some ("Device " ++ device ++ " not found or does not support power control")
    | none => none

/-- `WyreStormCoordinator.set_power` of the second-generation
`coordinator.py` (lines 229–258), as a trace semantics: the returned
pair is (effects performed in order, error raised).  A raised
`ValueError` aborts the call with no effects performed; otherwise one
`config_set_device_sinkpower` command is issued per device, followed by
`async_request_refresh`. -/
def set_power (data : Option CoordinatorData) (devices : List String)
    (power_state : String) : List Effect × Option String :=
  if power_state ∉ ["on", "off"] then
    ([], some ("Invalid power state: " ++ power_state))
  else
    match set_power_validation_error data devices with
    | some e => ([], some e)
    | none => (devices.map (fun device => Effect.sinkPower power_state device)
        ++ [Effect.requestRefresh], none)

/-- The net contribution of one identity record to
`build_device_collections`: `some device` when matching status and info
records exist and the factory succeeds, `none` otherwise. -/
def outcome (device_status_list : List DeviceStatus) (device_info_list : List DeviceInfo)
    (device_json : DeviceJsonString) : Option Device :=
  match device_status_list.find? (fun d => d.name = device_json.trueName),
        device_info_list.find? (fun d => d.name = device_json.trueName) with
  | some device_status, some device_info =>
    (create_device_from_wyrestorm_models device_json device_status device_info).toOption
  | _, _ => none

end NHD2

/-! ### First generation (`wyrestorm_networkhd/coordinator.py`)

The first-generation coordinator works on loosely shaped dict/object
payloads.  A dict value that may be absent is an `Option`; Python
truthiness of an optional string (`None` and `""` are falsy) is
`truthyS`. -/

namespace NHD1

/-- Python truthiness of an optional string. -/
def truthyS : Option String → Bool
  | none => false
  | some s => s != ""

/-- Python `pat in s` (substring test). -/
def containsSub (s pat : String) : Bool := containsCL pat.data s.data

/-- One item of the "device JSON" response, with the keys the
coordinator reads (`aliasName`, `deviceType`, `trueName`, `online`,
`ip`); any of them may be absent. -/
structure DeviceJsonItem where
  aliasName : Option String := none
  deviceType : Option String := none
  trueName : Option String := none
  online : Option Bool := none
  ip : Option String := none
deriving DecidableEq

/-- One item of the `"devices status"` list, with the keys the
coordinator reads.  Lean field `hdmi_in_active` stands for the dict key
`"hdmi in active"`, and similarly for the other space-separated keys. -/
structure DeviceStatusItem where
  aliasname : Option String := none
  name : Option String := none
  hdmi_in_active : Option String := none
  hdmi_out_active : Option String := none
  resolution : Option String := none
  hdmi_in_frame_rate : Option String := none
  hdmi_out_frame_rate : Option String := none
  hdmi_out_resolution : Option String := none
  audio_input_format : Option String := none
  audio_output_format : Option String := none
  audio_bitrate : Option String := none
  hdcp : Option String := none
deriving DecidableEq

/-- One entry of `processed_devices` (the dict literal built at
`coordinator.py` lines 587–607, updated at lines 615–629). -/
structure ProcessedDevice where
  type : String
  name : String
  model : String
  online : Bool
  ip_address : Option String
  current_source : Option String
  available_sources : List String
  power_state : String
  hdmi_in_active : Bool
  hdmi_out_active : Bool
  resolution : Option String
  hdmi_in_frame_rate : Option String
  hdmi_out_frame_rate : Option String
  hdmi_out_resolution : Option String
  audio_input_format : Option String
  audio_output_format : Option String
  audio_bitrate : Option String
  hdcp : Option String
deriving DecidableEq

/-- Result of the matrix query after the per-query retry loop:
`failed` stands for the `{}` fallback (or a wrong-shape response, which
`_validate_matrix_response` maps to the falsy `{}`), `ok` for a response
carrying an `assignments` list.  In this typed embedding every
assignment has both `tx` and `rx`, so the per-assignment validity filter
of `_validate_matrix_response` keeps every element. -/
inductive MatrixQueryResult
  | failed
  | ok (assignments : List NHD2.MatrixAssignment)
deriving DecidableEq

/-- Result of the device-status query after the per-query retry loop:
`failed` stands for the `{}` fallback (or a response without the
`"devices status"` key, which `_validate_device_status` maps to the
falsy `{}`), `ok` for a response carrying the list. -/
inductive StatusQueryResult
  | failed
  | ok (devices_status : List DeviceStatusItem)
deriving DecidableEq

/-- `_validate_device_json`: keep the items whose `aliasName` is truthy.
(The non-list case of the raw response is the `none` of the caller's
`Option`, which the caller replaces by `[]`.) -/
def validate_device_json (l : List DeviceJsonItem) : List DeviceJsonItem :=
  l.filter (fun item => truthyS item.aliasName)

/-- `_validate_matrix_response`: `none` is the falsy `{}`, `some` the
truthy `{"assignments": [...]}`. -/
def validate_matrix_response : MatrixQueryResult → Option (List NHD2.MatrixAssignment)
  | .failed => none
  | .ok assignments => some assignments

/-- `_validate_device_status`: `none` is the falsy `{}`, `some` the
truthy `{"devices status": [...]}` with the items whose `aliasname` is
truthy. -/
def validate_device_status : StatusQueryResult → Option (List DeviceStatusItem)
  | .failed => none
  | .ok devices_status =>
    some (devices_status.filter (fun item => truthyS item.aliasname))

/-- The `device_json_dict` lookup build (`coordinator.py` lines
534–542): key each item by `get("aliasName", "unknown")`, skipping the
literal `"unknown"`. -/
def buildJsonDict (items : List DeviceJsonItem) : List (String × DeviceJsonItem) :=
  items.foldl (fun m item =>
    let device_id := item.aliasName.getD "unknown"
    if device_id ≠ "unknown" then upsert device_id item m else m) []

/-- The `device_status_dict` lookup build (`coordinator.py` lines
544–552): key each item by `get("aliasname", "unknown")`, skipping the
literal `"unknown"`. -/
def buildStatusDict (items : List DeviceStatusItem) : List (String × DeviceStatusItem) :=
  items.foldl (fun m item =>
    let status_alias := item.aliasname.getD "unknown"
    if status_alias ≠ "unknown" then upsert status_alias item m else m) []

/-- `all_device_ids = set(json keys) | set(status keys)`
(`coordinator.py` line 559).  Python iterates a set in unspecified
order; the processed entry written for each id does not depend on the
order, so we fix json-keys-then-new-status-keys order. -/
def allDeviceIds (jsonKeys statusKeys : List String) : List String :=
  jsonKeys ++ statusKeys.filter (fun k => k ∉ jsonKeys)

/-- The per-device body of the processing loop (`coordinator.py` lines
561–629): type detection from `deviceType` (lower-cased) with the
model-name fallback, the defaulted entry, and the status-driven update
when a status record is present. -/
def mkProcessedDevice (device_id : String) (json_data : Option DeviceJsonItem)
    (status_data : Option DeviceStatusItem) : ProcessedDevice :=
  let device_type_str :=
    strToLower (match json_data with
     | some j => j.deviceType.getD ""
     | none => "")
  let device_type :=
    if device_type_str = "transmitter" then "encoder"
    else if device_type_str = "receiver" then "decoder"
    else
      let model_name :=
        match status_data with
        | some st => st.name.getD ""
        | none => ""
      if containsSub model_name "TX" then "encoder"
      else if containsSub model_name "RX" then "decoder"
      else "decoder"
  let default_model :=
    "NetworkHD " ++ (if device_type = "encoder" then "Encoder" else "Decoder")
  let status_name :=
    match status_data with
    | some st => st.name.getD default_model
    | none => default_model
  let model :=
    match (match json_data with | some j => j.trueName | none => none) with
    | some s => if s ≠ "" then s else status_name
    | none => status_name
  let base : ProcessedDevice :=
    { type := device_type
      name := device_id
      model := model
      online := (match json_data with | some j => j.online.getD false | none => false)
      ip_address := (match json_data with | some j => j.ip | none => none)
      current_source := none
      available_sources := []
      power_state := "unknown"
      hdmi_in_active := false
      hdmi_out_active := false
      resolution := none
      hdmi_in_frame_rate := none
      hdmi_out_frame_rate := none
      hdmi_out_resolution := none
      audio_input_format := none
      audio_output_format := none
      audio_bitrate := none
      hdcp := none }
  match status_data with
  | none => base
  | some st =>
    let hin := st.hdmi_in_active == some "true"
    let hout := st.hdmi_out_active == some "true"
    { base with
      power_state := if hin || hout then "on" else "off"
      hdmi_in_active := hin
      hdmi_out_active := hout
      resolution := st.resolution
      hdmi_in_frame_rate := st.hdmi_in_frame_rate
      hdmi_out_frame_rate := st.hdmi_out_frame_rate
      hdmi_out_resolution := st.hdmi_out_resolution
      audio_input_format := st.audio_input_format
      audio_output_format := st.audio_output_format
      audio_bitrate := st.audio_bitrate
      hdcp := st.hdcp }

/-- The matrix-assignment loop (`coordinator.py` lines 658–671): each
assignment sets `current_source` of the destination device when the
destination is a known device. -/
def applyMatrixToDevices (devices : List (String × ProcessedDevice))
    (assignments : List NHD2.MatrixAssignment) : List (String × ProcessedDevice) :=
  assignments.foldl (fun devs a =>
    match lookupS devs a.rx with
    | some d => upsert a.rx { d with current_source := some a.tx } devs
    | none => devs) devices

/-- The `available_sources` broadcast (`coordinator.py` lines 673–682):
every decoder gets the list of all encoder ids. -/
def applyAvailableSources (devices : List (String × ProcessedDevice)) :
    List (String × ProcessedDevice) :=
  let encoder_devices :=
    (devices.filter (fun kv => kv.2.type = "encoder")).map Prod.fst
  devices.map (fun kv =>
    (kv.1,
     if kv.2.type = "decoder" then { kv.2 with available_sources := encoder_devices }
     else kv.2))

/-- The snapshot dict returned by `_async_update_data`: `matrix` and
`device_status` are the validated values (`none` for the falsy `{}`),
`hasLastUpdate` stands for a non-`None` `last_update` timestamp, and
`error` for the presence of the `"error"` key. -/
structure CoordData where
  devices : List (String × ProcessedDevice)
  matrix : Option (List NHD2.MatrixAssignment)
  device_status : Option (List DeviceStatusItem)
  hasLastUpdate : Bool
  error : Option String
deriving DecidableEq

/-- The device-combination loop of `_async_update_data` (lines 554–649):
build the two lookup dicts, take the union of their key sets, and write
one processed entry per device id. -/
def processDevices (validated_device_json : List DeviceJsonItem)
    (validated_status_list : List DeviceStatusItem) : List (String × ProcessedDevice) :=
  let device_json_dict := buildJsonDict validated_device_json
  let device_status_dict := buildStatusDict validated_status_list
  let all_device_ids :=
    allDeviceIds (device_json_dict.map Prod.fst) (device_status_dict.map Prod.fst)
  all_device_ids.foldl (fun m id =>
    upsert id
      (mkProcessedDevice id (lookupS device_json_dict id) (lookupS device_status_dict id))
      m) []

/-- The success branch of `_async_update_data` (lines 520–698): process
devices, fill in matrix data when available, and return the snapshot
(no `"error"` key, `last_update` set). -/
def successSnapshot (validated_device_json : List DeviceJsonItem)
    (validated_matrix : Option (List NHD2.MatrixAssignment))
    (validated_device_status : Option (List DeviceStatusItem)) : CoordData :=
  let processed0 := processDevices validated_device_json (validated_device_status.getD [])
  let processed :=
    match validated_matrix with
    | some assignments =>
      if processed0 ≠ [] then
        applyAvailableSources (applyMatrixToDevices processed0 assignments)
      else processed0
    | none => processed0
  { devices := processed
    matrix := validated_matrix
    device_status := validated_device_status
    hasLastUpdate := true
    error := none }

/-- The error snapshot returned when every retry attempt failed
(`coordinator.py` lines 725–733): the `devices` collection is the empty
dict, `last_update` is `None` and the `"error"` key is set. -/
def errorSnapshot : CoordData :=
  { devices := []
    matrix := none
    device_status := none
    hasLastUpdate := false
    error := some "All retry attempts failed" }

/-- `_async_update_data` as a function of the three query results of one
poll cycle.  `deviceJsonRes = none` stands for a device-JSON query that
failed after all retries (the code then uses the `[]` fallback);
likewise `.failed` for the other two queries.  The outer retry loop
re-runs the same computation on the same per-cycle inputs, so it is the
identity here; if no validated source is truthy every attempt falls
through and the error snapshot of lines 727–733 is returned. -/
def asyncUpdateData (deviceJsonRes : Option (List DeviceJsonItem))
    (matrixRes : MatrixQueryResult) (statusRes : StatusQueryResult) : CoordData :=
  let validated_device_json := validate_device_json (deviceJsonRes.getD [])
  let validated_matrix := validate_matrix_response matrixRes
  let validated_device_status := validate_device_status statusRes
  if validated_device_json ≠ [] ∨ validated_matrix.isSome ∨ validated_device_status.isSome
  then successSnapshot validated_device_json validated_matrix validated_device_status
  else errorSnapshot

/-- `has_errors`: true when there is no snapshot, or when the snapshot
carries the `"error"` key. -/
def has_errors : Option CoordData → Bool
  | none => true
  | some d => d.error.isSome

/-- `is_ready`: a snapshot exists (the `"devices"` key is always present
in the typed snapshot). -/
def is_ready : Option CoordData → Bool
  | none => false
  | some _ => true

/-- `get_device_info`: `None` when not ready or unknown id, otherwise a
copy of the device entry (a device entry is a nonempty dict, hence
truthy). -/
def get_device_info (data : Option CoordData) (device_id : String) :
    Option ProcessedDevice :=
  match data with
  | none => none
  | some d => lookupS d.devices device_id

/-- A notification payload: either attribute-style (`obj`, where the
outer `Option` is attribute presence — `hasattr` — and the inner the
attribute's value, possibly Python `None`), or mapping-style (`dict`).
For the dict id keys a `None` value behaves exactly like an absent key
through `get` and the `or` chain, so one `Option` level suffices there;
the `"status"` key is probed with `in`, so presence-with-`None` is
distinguished and needs two levels. -/
inductive Notification
  | obj (device_id : Option (Option String)) (device : Option (Option String))
      (online : Option (Option Bool)) (status : Option (Option String))
  | dict (device_id : Option String) (device : Option String) (aliasName : Option String)
      (online : Option Bool) (status : Option (Option String))
deriving DecidableEq

/-- Python `a or b` on optional strings (`None` and `""` are falsy; the
last operand is returned as-is). -/
def pyOr (a b : Option String) : Option String :=
  match a with
  | some s => if s ≠ "" then some s else b
  | none => b

/-- `_extract_device_id_from_notification` (`coordinator.py` lines
235–249): attribute `device_id` first (its value is returned even when
`None`), else attribute `device`, else the dict chain
`get("device_id") or get("device") or get("aliasName")`; an
attribute-style payload with neither attribute falls through to
`None`. -/
def extract_device_id_from_notification : Notification → Option String
  | .obj (some v) _ _ _ => v
  | .obj none (some v) _ _ => v
  | .obj none none _ _ => none
  | .dict device_id device aliasName _ _ => pyOr (pyOr device_id device) aliasName

/-- `_extract_online_status_from_notification` (`coordinator.py` lines
251–269): attribute `online` first (`bool(v)` when non-`None`), else
attribute `status` compared to `"online"`, else dict key `"online"`
then dict key `"status"` compared to `"online"`. -/
def extract_online_status_from_notification : Notification → Option Bool
  | .obj _ _ (some v) _ => v
  | .obj _ _ none (some v) => v.map (fun s => s == "online")
  | .obj _ _ none none => none
  | .dict _ _ _ (some b) _ => some b
  | .dict _ _ _ none status =>
    match status with
    | some v => v.map (fun s => s == "online")
    | none => none

/-- `handle_endpoint_notification` (`coordinator.py` lines 152–184): if
a snapshot exists and both a truthy device id of a known device and an
online value are extracted, set that device's `online` field in place
and republish; otherwise leave the snapshot untouched. -/
def handle_endpoint_notification (data : Option CoordData) (n : Notification) :
    Option CoordData :=
  match data with
  | none => none
  | some d =>
    match extract_device_id_from_notification n,
          extract_online_status_from_notification n with
    | some device_id, some online_status =>
      if device_id ≠ "" then
        match lookupS d.devices device_id with
        | some dev =>
          some { d with devices := upsert device_id { dev with online := online_status } d.devices }
        | none => some d
      else some d
    | _, _ => some d

end NHD1

/-! ### Lemmas about association lists -/

@[simp]
theorem lookupS_upsert_self {α : Type} (k : String) (v : α) (l : List (String × α)) :
    lookupS (upsert k v l) k = some v := by
  induction l with
  | nil => simp [upsert, lookupS]
  | cons hd tl ih =>
    obtain ⟨k', v'⟩ := hd
    by_cases h : k' = k
    · simp [upsert, h, lookupS]
    · simp [upsert, h, lookupS, ih]

theorem lookupS_upsert_ne {α : Type} (k k' : String) (v : α) (l : List (String × α))
    (h : k' ≠ k) : lookupS (upsert k v l) k' = lookupS l k' := by
  have hne : ¬ k = k' := fun hh => h hh.symm
  induction l with
  | nil => simp [upsert, lookupS, hne]
  | cons hd tl ih =>
    obtain ⟨k₀, v₀⟩ := hd
    by_cases h0 : k₀ = k
    · subst h0
      simp [upsert, lookupS, hne]
    · simp only [upsert, h0, if_false, lookupS]
      by_cases h1 : k₀ = k'
      · simp [h1]
      · simp [h1, ih]

/-- A fold that writes `mk id` under key `id` for every id in the list
(the shape of each device-processing loop in the coordinators). -/
theorem lookupS_foldl_upsert {α : Type} (mk : String → α) (ids : List String)
    (m : List (String × α)) (k : String) :
    lookupS (ids.foldl (fun acc id => upsert id (mk id) acc) m) k
      = if k ∈ ids then some (mk k) else lookupS m k := by
  induction ids generalizing m with
  | nil => simp
  | cons i rest ih =>
    simp only [List.foldl_cons, ih]
    by_cases hk : k ∈ rest
    · simp [hk]
    · by_cases hi : k = i
      · subst hi
        simp [hk]
      · simp [hk, hi, lookupS_upsert_ne _ _ _ _ hi]

namespace NHD2

/-! #### Lemmas about the second-generation merge -/

theorem buildStep_eq_outcome (s : List DeviceStatus) (i : List DeviceInfo)
    (acc : List (String × Device) × List (String × Device)) (dj : DeviceJsonString) :
    buildStep s i acc dj =
      match outcome s i dj with
      | some d =>
        if d.device_type = "Transmitter" then (upsert d.true_name d acc.1, acc.2)
        else (acc.1, upsert d.true_name d acc.2)
      | none => acc := by
  cases hs : s.find? (fun d => d.name = dj.trueName) with
  | none => simp [buildStep, outcome, hs]
  | some ds =>
    cases hi : i.find? (fun d => d.name = dj.trueName) with
    | none => simp [buildStep, outcome, hs, hi]
    | some di =>
      cases hc : create_device_from_wyrestorm_models dj ds di with
      | ok d => simp [buildStep, outcome, hs, hi, hc, Except.toOption]
      | error e => simp [buildStep, outcome, hs, hi, hc, Except.toOption]

theorem create_ok_true_name (dj : DeviceJsonString) (ds : DeviceStatus) (di : DeviceInfo)
    (d : Device) (h : create_device_from_wyrestorm_models dj ds di = .ok d) :
    d.true_name = dj.trueName := by
  simp only [create_device_from_wyrestorm_models] at h
  split at h
  · cases h
    rfl
  · split at h
    · cases h
      rfl
    · cases h

theorem create_ok_device_type (dj : DeviceJsonString) (ds : DeviceStatus) (di : DeviceInfo)
    (d : Device) (h : create_device_from_wyrestorm_models dj ds di = .ok d) :
    d.device_type = dj.deviceType := by
  simp only [create_device_from_wyrestorm_models] at h
  split at h
  · cases h
    rfl
  · split at h
    · cases h
      rfl
    · cases h

theorem create_receiver_variant (dj : DeviceJsonString) (ds : DeviceStatus) (di : DeviceInfo)
    (h : strToLower dj.deviceType = "receiver") :
    ∃ b f, create_device_from_wyrestorm_models dj ds di = .ok (Device.rx b f) := by
  simp only [create_device_from_wyrestorm_models]
  rw [if_pos h]
  exact ⟨_, _, rfl⟩

theorem create_transmitter_variant (dj : DeviceJsonString) (ds : DeviceStatus) (di : DeviceInfo)
    (h : strToLower dj.deviceType = "transmitter") :
    ∃ b f, create_device_from_wyrestorm_models dj ds di = .ok (Device.tx b f) := by
  have hne : ¬ strToLower dj.deviceType = "receiver" := by
    rw [h]
    decide
  simp only [create_device_from_wyrestorm_models]
  rw [if_neg hne, if_pos h]
  exact ⟨_, _, rfl⟩

theorem create_unknown_type_errors (dj : DeviceJsonString) (ds : DeviceStatus) (di : DeviceInfo)
    (h1 : strToLower dj.deviceType ≠ "receiver") (h2 : strToLower dj.deviceType ≠ "transmitter") :
    ∃ e, create_device_from_wyrestorm_models dj ds di = .error e := by
  simp only [create_device_from_wyrestorm_models]
  rw [if_neg h1, if_neg h2]
  exact ⟨_, rfl⟩

theorem outcome_some_true_name (s : List DeviceStatus) (i : List DeviceInfo)
    (dj : DeviceJsonString) (d : Device) (h : outcome s i dj = some d) :
    d.true_name = dj.trueName := by
  unfold outcome at h
  split at h
  · rename_i ds di _ _
    cases hc : create_device_from_wyrestorm_models dj ds di with
    | ok d' =>
      rw [hc] at h
      simp [Except.toOption] at h
      subst h
      exact create_ok_true_name dj ds di _ hc
    | error e =>
      rw [hc] at h
      simp [Except.toOption] at h
  · cases h

theorem outcome_unknown_type (s : List DeviceStatus) (i : List DeviceInfo)
    (dj : DeviceJsonString) (h1 : strToLower dj.deviceType ≠ "receiver")
    (h2 : strToLower dj.deviceType ≠ "transmitter") : outcome s i dj = none := by
  unfold outcome
  split
  · rename_i ds di _ _
    obtain ⟨e, he⟩ := create_unknown_type_errors dj ds di h1 h2
    simp [he, Except.toOption]
  · rfl

/-- If no identity record in the list can contribute an entry under key
`n` (either it is named differently or its contribution is skipped),
the fold leaves both collections unchanged at `n`. -/
theorem buildFold_preserved (s : List DeviceStatus) (i : List DeviceInfo)
    (js : List DeviceJsonString) (n : String)
    (h : ∀ dj ∈ js, dj.trueName = n → outcome s i dj = none)
    (acc : List (String × Device) × List (String × Device)) :
    lookupS (js.foldl (buildStep s i) acc).1 n = lookupS acc.1 n ∧
    lookupS (js.foldl (buildStep s i) acc).2 n = lookupS acc.2 n := by
  induction js generalizing acc with
  | nil => exact ⟨rfl, rfl⟩
  | cons dj rest ih =>
    have hstep : lookupS (buildStep s i acc dj).1 n = lookupS acc.1 n ∧
        lookupS (buildStep s i acc dj).2 n = lookupS acc.2 n := by
      rw [buildStep_eq_outcome]
      cases ho : outcome s i dj with
      | none => exact ⟨rfl, rfl⟩
      | some d =>
        have hkey : d.true_name = dj.trueName := outcome_some_true_name s i dj d ho
        have hne : dj.trueName ≠ n := by
          intro hn
          exact absurd (h dj (List.mem_cons_self dj rest) hn) (by simp [ho])
        by_cases htx : d.device_type = "Transmitter" <;>
          simp [htx, hkey, lookupS_upsert_ne _ _ _ _ (fun hh => hne hh.symm)]
    have ih' := ih (fun dj' hm hn => h dj' (List.mem_cons_of_mem _ hm) hn)
        (buildStep s i acc dj)
    simp only [List.foldl_cons]
    exact ⟨ih'.1.trans hstep.1, ih'.2.trans hstep.2⟩

/-- Full characterization of the lookups in the result of
`build_device_collections` at a name `n`, for identity lists with no
duplicate `trueName`: the entry comes from the unique record named `n`
(if any), dispatched on its created device's `device_type`. -/
theorem build_lookup (s : List DeviceStatus) (i : List DeviceInfo)
    (js : List DeviceJsonString) (n : String)
    (hnd : (js.map (fun dj => dj.trueName)).Nodup)
    (acc : List (String × Device) × List (String × Device)) :
    (lookupS (js.foldl (buildStep s i) acc).1 n,
     lookupS (js.foldl (buildStep s i) acc).2 n) =
      match js.find? (fun dj => dj.trueName = n) with
      | none => (lookupS acc.1 n, lookupS acc.2 n)
      | some dj =>
        match outcome s i dj with
        | none => (lookupS acc.1 n, lookupS acc.2 n)
        | some d =>
          if d.device_type = "Transmitter" then (some d, lookupS acc.2 n)
          else (lookupS acc.1 n, some d) := by
  induction js generalizing acc with
  | nil => rfl
  | cons dj rest ih =>
    simp only [List.map_cons, List.nodup_cons] at hnd
    obtain ⟨hnotin, hnd'⟩ := hnd
    by_cases hn : dj.trueName = n
    · subst hn
      have hrest : ∀ dj' ∈ rest, dj'.trueName = dj.trueName → outcome s i dj' = none := by
        intro dj' hm he
        exact absurd (he ▸ List.mem_map_of_mem (fun x => x.trueName) hm) hnotin
      have hpres := buildFold_preserved s i rest dj.trueName hrest (buildStep s i acc dj)
      have hfind : (dj :: rest).find? (fun x => x.trueName = dj.trueName) = some dj := by
        simp [List.find?]
      simp only [List.foldl_cons, hfind, hpres.1, hpres.2]
      rw [buildStep_eq_outcome]
      cases ho : outcome s i dj with
      | none => rfl
      | some d =>
        have hkey : d.true_name = dj.trueName := outcome_some_true_name s i dj d ho
        by_cases htx : d.device_type = "Transmitter" <;> simp [htx, hkey]
    · have hfind : (dj :: rest).find? (fun x => x.trueName = n)
          = rest.find? (fun x => x.trueName = n) := by
        simp [List.find?, hn]
      have hstep : lookupS (buildStep s i acc dj).1 n = lookupS acc.1 n ∧
          lookupS (buildStep s i acc dj).2 n = lookupS acc.2 n := by
        rw [buildStep_eq_outcome]
        cases ho : outcome s i dj with
        | none => exact ⟨rfl, rfl⟩
        | some d =>
          have hkey : d.true_name = dj.trueName := outcome_some_true_name s i dj d ho
          by_cases htx : d.device_type = "Transmitter" <;>
            simp [htx, hkey, lookupS_upsert_ne _ _ _ _ (fun hh => hn hh.symm)]
      simp only [List.foldl_cons, hfind, ih hnd' (buildStep s i acc dj), hstep.1, hstep.2]
end NHD2


namespace NHD1

/-! #### Lemmas about the first-generation coordinator -/

theorem lookupS_isSome_mem {α : Type} (m : List (String × α)) (s : String)
    (h : (lookupS m s).isSome) : s ∈ m.map Prod.fst := by
  induction m with
  | nil => simp [lookupS] at h
  | cons hd tl ih =>
    obtain ⟨k, v⟩ := hd
    simp only [List.map_cons, List.mem_cons]
    by_cases hk : k = s
    · exact Or.inl hk.symm
    · right
      apply ih
      simpa [lookupS, hk] using h

theorem lookupS_ne_nil {α : Type} (m : List (String × α)) (s : String) (d : α)
    (h : lookupS m s = some d) : m ≠ [] := by
  intro hm
  subst hm
  simp [lookupS] at h

/-- The id-keyed dict builds (`buildJsonDict`/`buildStatusDict`) never
lose a key that an earlier step wrote. -/
theorem lookupS_skipFold_mono {β : Type} (key : β → String) (items : List β)
    (m : List (String × β)) (s : String) (h : (lookupS m s).isSome) :
    (lookupS (items.foldl
        (fun m item => if key item ≠ "unknown" then upsert (key item) item m else m) m)
      s).isSome := by
  induction items generalizing m with
  | nil => exact h
  | cons item rest ih =>
    simp only [List.foldl_cons]
    apply ih
    by_cases hk : key item ≠ "unknown"
    · rw [if_pos hk]
      by_cases he : key item = s
      · subst he
        simp
      · rw [lookupS_upsert_ne _ _ _ _ (fun hh => he hh.symm)]
        exact h
    · rw [if_neg hk]
      exact h

/-- An item whose key is not the literal `"unknown"` ends up in the
id-keyed dict. -/
theorem lookupS_skipFold_mem {β : Type} (key : β → String) (items : List β)
    (m : List (String × β)) (s : String) (hs : s ≠ "unknown")
    (h : ∃ item ∈ items, key item = s) :
    (lookupS (items.foldl
        (fun m item => if key item ≠ "unknown" then upsert (key item) item m else m) m)
      s).isSome := by
  induction items generalizing m with
  | nil =>
    obtain ⟨item, hm, _⟩ := h
    cases hm
  | cons item rest ih =>
    obtain ⟨w, hw, hkey⟩ := h
    simp only [List.foldl_cons]
    rcases List.mem_cons.mp hw with hw | hw
    · have hki : key item = s := hw ▸ hkey
      apply lookupS_skipFold_mono
      rw [hki, if_pos hs]
      simp
    · exact ih _ ⟨w, hw, hkey⟩

theorem buildJsonDict_lookup_isSome (items : List DeviceJsonItem) (s : String)
    (hs : s ≠ "unknown") (h : ∃ item ∈ items, item.aliasName.getD "unknown" = s) :
    (lookupS (buildJsonDict items) s).isSome := by
  have h2 := lookupS_skipFold_mem
    (fun item : DeviceJsonItem => item.aliasName.getD "unknown") items [] s hs h
  simpa [buildJsonDict] using h2

theorem processDevices_lookup (vjson : List DeviceJsonItem)
    (vstatus : List DeviceStatusItem) (s : String) :
    lookupS (processDevices vjson vstatus) s =
      if s ∈ allDeviceIds ((buildJsonDict vjson).map Prod.fst)
              ((buildStatusDict vstatus).map Prod.fst)
      then some (mkProcessedDevice s (lookupS (buildJsonDict vjson) s)
            (lookupS (buildStatusDict vstatus) s))
      else none := by
  have h := lookupS_foldl_upsert
    (fun id => mkProcessedDevice id (lookupS (buildJsonDict vjson) id)
      (lookupS (buildStatusDict vstatus) id))
    (allDeviceIds ((buildJsonDict vjson).map Prod.fst)
      ((buildStatusDict vstatus).map Prod.fst)) [] s
  simpa [processDevices, lookupS] using h

/-- The matrix loop can only rewrite `current_source`; every other field
of a looked-up device survives. -/
theorem applyMatrix_lookup (assignments : List NHD2.MatrixAssignment)
    (devs : List (String × ProcessedDevice)) (s : String) (d : ProcessedDevice)
    (h : lookupS devs s = some d) :
    ∃ cs, lookupS (applyMatrixToDevices devs assignments) s
      = some { d with current_source := cs } := by
  induction assignments generalizing devs d with
  | nil => exact ⟨d.current_source, h⟩
  | cons a rest ih =>
    simp only [applyMatrixToDevices, List.foldl_cons] at ih ⊢
    by_cases ha : a.rx = s
    · subst ha
      rw [h]
      obtain ⟨cs, hcs⟩ := ih (upsert a.rx { d with current_source := some a.tx } devs)
        { d with current_source := some a.tx } (lookupS_upsert_self _ _ _)
      exact ⟨cs, hcs⟩
    · cases hr : lookupS devs a.rx with
      | none => exact ih _ _ h
      | some d0 =>
        have hl : lookupS (upsert a.rx { d0 with current_source := some a.tx } devs) s
            = some d := by
          rw [lookupS_upsert_ne _ _ _ _ (fun hh => ha hh.symm)]
          exact h
        exact ih _ _ hl

/-- Assignments that never target `A` leave `A`'s entry unchanged. -/
theorem applyMatrix_preserve (assignments : List NHD2.MatrixAssignment)
    (devs : List (String × ProcessedDevice)) (A : String)
    (h : ∀ x ∈ assignments, x.rx ≠ A) :
    lookupS (applyMatrixToDevices devs assignments) A = lookupS devs A := by
  induction assignments generalizing devs with
  | nil => rfl
  | cons a rest ih =>
    simp only [applyMatrixToDevices, List.foldl_cons] at ih ⊢
    have ha : a.rx ≠ A := h a (List.mem_cons_self a rest)
    have hrest : ∀ x ∈ rest, x.rx ≠ A := fun x hx => h x (List.mem_cons_of_mem _ hx)
    cases hr : lookupS devs a.rx with
    | none => exact ih _ hrest
    | some d0 =>
      exact (ih (upsert a.rx { d0 with current_source := some a.tx } devs) hrest).trans
        (lookupS_upsert_ne _ _ _ _ (fun hh => ha hh.symm))

/-- The last assignment in list order for a given receiver determines
its `current_source` after the matrix loop. -/
theorem applyMatrix_last_wins (assignments : List NHD2.MatrixAssignment)
    (A : String) (a : NHD2.MatrixAssignment)
    (hfind : assignments.reverse.find? (fun x => x.rx = A) = some a)
    (devs : List (String × ProcessedDevice)) (d : ProcessedDevice)
    (hd : lookupS devs A = some d) :
    lookupS (applyMatrixToDevices devs assignments) A
      = some { d with current_source := some a.tx } := by
  induction assignments generalizing devs d with
  | nil => simp [List.find?] at hfind
  | cons b rest ih =>
    rw [List.reverse_cons, List.find?_append] at hfind
    simp only [applyMatrixToDevices, List.foldl_cons] at ih ⊢
    cases hf : rest.reverse.find? (fun x => x.rx = A) with
    | some a' =>
      rw [hf, Option.or_some] at hfind
      cases hfind
      by_cases hb : b.rx = A
      · subst hb
        rw [hd]
        exact ih hf (upsert b.rx { d with current_source := some b.tx } devs)
          { d with current_source := some b.tx } (lookupS_upsert_self _ _ _)
      · cases hr : lookupS devs b.rx with
        | none => exact ih hf _ _ hd
        | some d0 =>
          have hl : lookupS (upsert b.rx { d0 with current_source := some b.tx } devs) A
              = some d := by
            rw [lookupS_upsert_ne _ _ _ _ (fun hh => hb hh.symm)]
            exact hd
          exact ih hf _ _ hl
    | none =>
      rw [hf, Option.none_or] at hfind
      have hnone : ∀ x ∈ rest, x.rx ≠ A := by
        intro x hx
        have := List.find?_eq_none.mp hf x (List.mem_reverse.mpr hx)
        simpa using this
      by_cases hb : b.rx = A
      · rw [List.find?_cons_of_pos _ (by simpa using hb)] at hfind
        cases hfind
        rw [← hb] at hd
        rw [hd]
        have hpres := applyMatrix_preserve rest
          (upsert a.rx { d with current_source := some a.tx } devs) A hnone
        simp only [applyMatrixToDevices] at hpres
        have hself : lookupS (upsert a.rx { d with current_source := some a.tx } devs) A
            = some { d with current_source := some a.tx } := by
          rw [← hb]
          exact lookupS_upsert_self _ _ _
        exact hpres.trans hself
      · rw [List.find?_cons_of_neg _ (by simpa using hb), List.find?_nil] at hfind
        cases hfind

theorem applyAS_lookup_gen (enc : List String)
    (devs : List (String × ProcessedDevice)) (s : String) :
    lookupS (devs.map (fun kv =>
        (kv.1,
         if kv.2.type = "decoder" then { kv.2 with available_sources := enc }
         else kv.2))) s
      = (lookupS devs s).map (fun v =>
          if v.type = "decoder" then { v with available_sources := enc } else v) := by
  induction devs with
  | nil => rfl
  | cons kv rest ih =>
    obtain ⟨k, v⟩ := kv
    by_cases h : k = s <;> simp [lookupS, h, ih]

/-- The `available_sources` broadcast can only rewrite
`available_sources`; every other field of a looked-up device
survives. -/
theorem applyAS_lookup (devs : List (String × ProcessedDevice)) (s : String)
    (d : ProcessedDevice) (h : lookupS devs s = some d) :
    ∃ av, lookupS (applyAvailableSources devs) s
      = some { d with available_sources := av } := by
  simp only [applyAvailableSources]
  rw [applyAS_lookup_gen, h]
  by_cases ht : d.type = "decoder"
  · refine ⟨(devs.filter (fun kv => kv.2.type = "encoder")).map Prod.fst, ?_⟩
    simp [ht]
  · refine ⟨d.available_sources, ?_⟩
    simp [ht]

/-- The `rx ↦ tx` dict fold realizes last-assignment-wins. -/
theorem lookupS_foldl_assign (assignments : List NHD2.MatrixAssignment)
    (m : List (String × String)) (A : String) :
    lookupS (assignments.foldl (fun acc a => upsert a.rx a.tx acc) m) A =
      match assignments.reverse.find? (fun a => a.rx = A) with
      | some a => some a.tx
      | none => lookupS m A := by
  induction assignments generalizing m with
  | nil => rfl
  | cons a rest ih =>
    simp only [List.foldl_cons, ih, List.reverse_cons, List.find?_append]
    cases hf : rest.reverse.find? (fun x => x.rx = A) with
    | some b => simp
    | none =>
      by_cases h : a.rx = A
      · subst h
        simp
      · simp [h, lookupS_upsert_ne _ _ _ _ (fun hh => h hh.symm)]

end NHD1


/-! ### Remaining helper theorems -/

theorem mkProcessedDevice_no_status (id : String) (jd : Option NHD1.DeviceJsonItem) :
    (NHD1.mkProcessedDevice id jd none).power_state = "unknown" ∧
    (NHD1.mkProcessedDevice id jd none).hdmi_in_active = false ∧
    (NHD1.mkProcessedDevice id jd none).hdmi_out_active = false ∧
    (NHD1.mkProcessedDevice id jd none).resolution = none ∧
    (NHD1.mkProcessedDevice id jd none).hdmi_in_frame_rate = none ∧
    (NHD1.mkProcessedDevice id jd none).hdmi_out_frame_rate = none ∧
    (NHD1.mkProcessedDevice id jd none).hdmi_out_resolution = none ∧
    (NHD1.mkProcessedDevice id jd none).audio_input_format = none ∧
    (NHD1.mkProcessedDevice id jd none).audio_output_format = none ∧
    (NHD1.mkProcessedDevice id jd none).audio_bitrate = none ∧
    (NHD1.mkProcessedDevice id jd none).hdcp = none :=
  ⟨rfl, rfl, rfl, rfl, rfl, rfl, rfl, rfl, rfl, rfl, rfl⟩

theorem create_ok_base_fields (dj : NHD2.DeviceJsonString) (ds : NHD2.DeviceStatus)
    (di : NHD2.DeviceInfo) (d : NHD2.Device)
    (h : NHD2.create_device_from_wyrestorm_models dj ds di = .ok d) :
    d.alias_name = dj.aliasName ∧ d.true_name = dj.trueName ∧
    (d.base).mac = di.mac ∧ (d.base).version = di.version ∧
    (d.base).stream_resolution = ds.stream_resolution := by
  simp only [NHD2.create_device_from_wyrestorm_models] at h
  split at h
  · cases h
    exact ⟨rfl, rfl, rfl, rfl, rfl⟩
  · split at h
    · cases h
      exact ⟨rfl, rfl, rfl, rfl, rfl⟩
    · cases h

theorem pyOr_eq_or (x y : Option String) (hx : x ≠ some "") :
    NHD1.pyOr x y = x.or y := by
  cases x with
  | none => rfl
  | some s =>
    have hs : s ≠ "" := fun h => hx (by rw [h])
    simp [NHD1.pyOr, hs]

/-! ### The claims -/

/-- C1 (counterexample): a previous successful cycle (identity with one
device `rx1`, matrix succeeded, status failed) yields a snapshot whose
`devices` contains `rx1`; when afterwards every query of a cycle fails
after exhausting all retries, `_async_update_data` publishes a snapshot
whose `devices` is the EMPTY collection — the previous `devices` is not
preserved, refuting the claim that the error snapshot keeps the last
good `devices`. -/
theorem c1_counterexample :
    lookupS (NHD1.asyncUpdateData
        (some [{ aliasName := some "rx1", deviceType := some "Receiver" }])
        (.ok []) .failed).devices "rx1"
      = some (NHD1.mkProcessedDevice "rx1"
          (some { aliasName := some "rx1", deviceType := some "Receiver" }) none) ∧
    (NHD1.asyncUpdateData none .failed .failed).devices = [] ∧
    (NHD1.asyncUpdateData none .failed .failed).devices
      ≠ (NHD1.asyncUpdateData
          (some [{ aliasName := some "rx1", deviceType := some "Receiver" }])
          (.ok []) .failed).devices ∧
    (NHD1.asyncUpdateData none .failed .failed).error = some "All retry attempts failed" ∧
    NHD1.has_errors (some (NHD1.asyncUpdateData none .failed .failed)) = true := by
  decide

/-- C1 (amended): when every query of a poll cycle fails after
exhausting all retry attempts, `_async_update_data` publishes the error
snapshot of lines 725–733: the `devices` collection is replaced by the
EMPTY dict (the previous devices are discarded, not preserved), the
`error` field is set, and `has_errors()` returns true afterwards. -/
theorem c1_all_queries_fail_error_snapshot :
    NHD1.asyncUpdateData none .failed .failed = NHD1.errorSnapshot ∧
    NHD1.errorSnapshot.devices = [] ∧
    NHD1.errorSnapshot.error = some "All retry attempts failed" ∧
    NHD1.has_errors (some (NHD1.asyncUpdateData none .failed .failed)) = true :=
  ⟨rfl, rfl, rfl, rfl⟩

/-- C2 (counterexample): the identity result may name a device by the
literal alias `"unknown"`; it survives `_validate_device_json` (the
alias is truthy), yet the lookup-building step at lines 536–538 drops
it, so with status failed and matrix succeeded the published snapshot
contains NO device — refuting "the snapshot contains every device named
in the identity result".  (`has_errors()` is still false, as the claim
says.) -/
theorem c2_counterexample :
    NHD1.validate_device_json [{ aliasName := some "unknown" }]
      = [{ aliasName := some "unknown" }] ∧
    (NHD1.asyncUpdateData (some [{ aliasName := some "unknown" }])
        (.ok []) .failed).devices = [] ∧
    lookupS (NHD1.asyncUpdateData (some [{ aliasName := some "unknown" }])
        (.ok []) .failed).devices "unknown" = none ∧
    NHD1.has_errors (some (NHD1.asyncUpdateData (some [{ aliasName := some "unknown" }])
        (.ok []) .failed)) = false := by
  refine ⟨rfl, rfl, rfl, rfl⟩

/-- C2 (amended): if, within one poll cycle, the device-status query
fails (or yields nothing valid — both cases validate to an empty status
source) while the identity and matrix queries succeed, then for every
identity record whose alias is a non-empty string other than the
literal `"unknown"`, the published snapshot contains a device under
that alias with every status-derived field at its documented default
(`power_state = "unknown"`, `hdmi_in_active`/`hdmi_out_active` false,
`resolution` and the other status fields `None`), and `has_errors()`
returns false on the resulting snapshot. -/
theorem c2_status_failure_defaults (l : List NHD1.DeviceJsonItem)
    (assignments : List NHD2.MatrixAssignment) (statusRes : NHD1.StatusQueryResult)
    (hstatus : NHD1.validate_device_status statusRes = none ∨
      NHD1.validate_device_status statusRes = some [])
    (item : NHD1.DeviceJsonItem) (s : String) (hmem : item ∈ l)
    (halias : item.aliasName = some s) (hs0 : s ≠ "") (hsu : s ≠ "unknown") :
    (∃ d, lookupS (NHD1.asyncUpdateData (some l) (.ok assignments) statusRes).devices s
        = some d ∧
      d.power_state = "unknown" ∧ d.hdmi_in_active = false ∧ d.hdmi_out_active = false ∧
      d.resolution = none ∧ d.hdmi_in_frame_rate = none ∧ d.hdmi_out_frame_rate = none ∧
      d.hdmi_out_resolution = none ∧ d.audio_input_format = none ∧
      d.audio_output_format = none ∧ d.audio_bitrate = none ∧ d.hdcp = none) ∧
    NHD1.has_errors
      (some (NHD1.asyncUpdateData (some l) (.ok assignments) statusRes)) = false := by
  have hred : NHD1.asyncUpdateData (some l) (.ok assignments) statusRes
      = NHD1.successSnapshot (NHD1.validate_device_json l) (some assignments)
          (NHD1.validate_device_status statusRes) := by
    simp only [NHD1.asyncUpdateData, NHD1.validate_matrix_response, Option.getD_some]
    rw [if_pos (show NHD1.validate_device_json l ≠ [] ∨
        (some assignments).isSome = true ∨
        (NHD1.validate_device_status statusRes).isSome = true
      from Or.inr (Or.inl rfl))]
  have hvempty : (NHD1.validate_device_status statusRes).getD [] = [] := by
    rcases hstatus with h | h <;> rw [h] <;> rfl
  have hmem' : item ∈ NHD1.validate_device_json l := by
    refine List.mem_filter.mpr ⟨hmem, ?_⟩
    rw [halias]
    simp only [NHD1.truthyS]
    simpa using hs0
  have hjd : (lookupS (NHD1.buildJsonDict (NHD1.validate_device_json l)) s).isSome :=
    NHD1.buildJsonDict_lookup_isSome _ _ hsu ⟨item, hmem', by rw [halias]; rfl⟩
  have hid : s ∈ NHD1.allDeviceIds
      ((NHD1.buildJsonDict (NHD1.validate_device_json l)).map Prod.fst)
      ((NHD1.buildStatusDict []).map Prod.fst) :=
    List.mem_append_left _ (NHD1.lookupS_isSome_mem _ _ hjd)
  have hp0 : lookupS (NHD1.processDevices (NHD1.validate_device_json l) []) s
      = some (NHD1.mkProcessedDevice s
          (lookupS (NHD1.buildJsonDict (NHD1.validate_device_json l)) s) none) := by
    rw [NHD1.processDevices_lookup, if_pos hid]
    rfl
  have hne0 : NHD1.processDevices (NHD1.validate_device_json l) [] ≠ [] :=
    NHD1.lookupS_ne_nil _ _ _ hp0
  obtain ⟨cs, hcs⟩ := NHD1.applyMatrix_lookup assignments _ s _ hp0
  obtain ⟨av, hav⟩ := NHD1.applyAS_lookup _ s _ hcs
  have hdev : lookupS (NHD1.successSnapshot (NHD1.validate_device_json l)
      (some assignments) (NHD1.validate_device_status statusRes)).devices s
      = some { { NHD1.mkProcessedDevice s
            (lookupS (NHD1.buildJsonDict (NHD1.validate_device_json l)) s) none
          with current_source := cs } with available_sources := av } := by
    simp only [NHD1.successSnapshot, hvempty]
    rw [if_pos hne0]
    exact hav
  constructor
  · rw [hred]
    obtain ⟨h1, h2, h3, h4, h5, h6, h7, h8, h9, h10, h11⟩ :=
      mkProcessedDevice_no_status s
        (lookupS (NHD1.buildJsonDict (NHD1.validate_device_json l)) s)
    exact ⟨_, hdev, h1, h2, h3, h4, h5, h6, h7, h8, h9, h10, h11⟩
  · rw [hred]
    rfl


/-- C2 (witness): with identity `rx1` (a receiver), matrix succeeding
with no assignments and the status query failed, the published snapshot
holds `rx1` with the documented defaults and no error flag. -/
theorem c2_status_failure_defaults_witness :
    (∃ d, lookupS (NHD1.asyncUpdateData
        (some [{ aliasName := some "rx1", deviceType := some "Receiver" }])
        (.ok []) .failed).devices "rx1" = some d ∧
      d.power_state = "unknown" ∧ d.hdmi_in_active = false ∧
      d.hdmi_out_active = false ∧ d.resolution = none) ∧
    NHD1.has_errors (some (NHD1.asyncUpdateData
        (some [{ aliasName := some "rx1", deviceType := some "Receiver" }])
        (.ok []) .failed)) = false := by
  have h := c2_status_failure_defaults
    [{ aliasName := some "rx1", deviceType := some "Receiver" }] [] .failed
    (Or.inl rfl)
    { aliasName := some "rx1", deviceType := some "Receiver" } "rx1"
    (by decide) rfl (by decide) (by decide)
  obtain ⟨⟨d, hd, h1, h2, h3, h4, -⟩, herr⟩ := h
  exact ⟨⟨d, hd, h1, h2, h3, h4⟩, herr⟩

/-- C3 (counterexample): a device name (`"G1"`) that appears in all
three lists — identity, status and static info — can still contribute
NO merged device, when the identity record's `deviceType` (here
`"Gadget"`) is not a recognized role: the factory raises and
`build_device_collections` skips the record.  This refutes the claim
that every name appearing in all three lists yields exactly one merged
device. -/
theorem c3_counterexample :
    (([({ aliasName := "g", trueName := "G1", deviceType := "Gadget", ip := "1",
          online := true, sequence := 1 } : NHD2.DeviceJsonString)].find?
        (fun x => x.trueName = "G1")).isSome = true ∧
     ([({ name := "G1" } : NHD2.DeviceStatus)].find? (fun x => x.name = "G1")).isSome
        = true ∧
     ([({ name := "G1", mac := "m", gateway := "g", netmask := "n", version := "v",
          edid := "e", ip_mode := "dhcp" } : NHD2.DeviceInfo)].find?
        (fun x => x.name = "G1")).isSome = true) ∧
    (NHD2.build_device_collections
        [{ aliasName := "g", trueName := "G1", deviceType := "Gadget", ip := "1",
           online := true, sequence := 1 }]
        [{ name := "G1" }]
        [{ name := "G1", mac := "m", gateway := "g", netmask := "n", version := "v",
           edid := "e", ip_mode := "dhcp" }]).1 = [] ∧
    (NHD2.build_device_collections
        [{ aliasName := "g", trueName := "G1", deviceType := "Gadget", ip := "1",
           online := true, sequence := 1 }]
        [{ name := "G1" }]
        [{ name := "G1", mac := "m", gateway := "g", netmask := "n", version := "v",
           edid := "e", ip_mode := "dhcp" }]).2 = [] := by
  decide

/-- C3 (amended): `build_device_collections` is a strict inner join on
the device name, restricted to recognized roles.  (1) For identity
lists without duplicate `trueName`s: if a name `n` has an identity
record (with a device type that is, case-insensitively, "receiver" or
"transmitter"), a status record, and a static-info record, the output
holds exactly one merged device for `n` — in exactly one of the two
collections — built by the factory from those three records, with
fields drawn from all three.  (2) A name missing from any one of the
three lists contributes no device to either collection. -/
theorem c3_strict_inner_join :
    (∀ (js : List NHD2.DeviceJsonString) (ss : List NHD2.DeviceStatus)
        (ii : List NHD2.DeviceInfo) (n : String) (dj : NHD2.DeviceJsonString)
        (ds : NHD2.DeviceStatus) (di : NHD2.DeviceInfo),
      (js.map (fun x => x.trueName)).Nodup →
      js.find? (fun x => x.trueName = n) = some dj →
      ss.find? (fun x => x.name = n) = some ds →
      ii.find? (fun x => x.name = n) = some di →
      (strToLower dj.deviceType = "receiver" ∨ strToLower dj.deviceType = "transmitter") →
      ∃ d, NHD2.create_device_from_wyrestorm_models dj ds di = .ok d ∧
        d.alias_name = dj.aliasName ∧ d.true_name = dj.trueName ∧
        (d.base).mac = di.mac ∧ (d.base).version = di.version ∧
        (d.base).stream_resolution = ds.stream_resolution ∧
        (if d.device_type = "Transmitter"
         then lookupS (NHD2.build_device_collections js ss ii).1 n = some d ∧
              lookupS (NHD2.build_device_collections js ss ii).2 n = none
         else lookupS (NHD2.build_device_collections js ss ii).1 n = none ∧
              lookupS (NHD2.build_device_collections js ss ii).2 n = some d)) ∧
    (∀ (js : List NHD2.DeviceJsonString) (ss : List NHD2.DeviceStatus)
        (ii : List NHD2.DeviceInfo) (n : String),
      (js.find? (fun x => x.trueName = n) = none ∨
       ss.find? (fun x => x.name = n) = none ∨
       ii.find? (fun x => x.name = n) = none) →
      lookupS (NHD2.build_device_collections js ss ii).1 n = none ∧
      lookupS (NHD2.build_device_collections js ss ii).2 n = none) := by
  constructor
  · intro js ss ii n dj ds di hnd hj hs hi hrec
    have hdjn : dj.trueName = n := by simpa using List.find?_some hj
    have hcreate : ∃ d, NHD2.create_device_from_wyrestorm_models dj ds di = .ok d := by
      rcases hrec with h | h
      · obtain ⟨b, f, hok⟩ := NHD2.create_receiver_variant dj ds di h
        exact ⟨_, hok⟩
      · obtain ⟨b, f, hok⟩ := NHD2.create_transmitter_variant dj ds di h
        exact ⟨_, hok⟩
    obtain ⟨d, hok⟩ := hcreate
    have ho : NHD2.outcome ss ii dj = some d := by
      unfold NHD2.outcome
      rw [hdjn, hs, hi]
      show (NHD2.create_device_from_wyrestorm_models dj ds di).toOption = some d
      rw [hok]
      rfl
    obtain ⟨f1, f2, f3, f4, f5⟩ := create_ok_base_fields dj ds di d hok
    have hlk := NHD2.build_lookup ss ii js n hnd ([], [])
    rw [hj] at hlk
    simp only [ho, lookupS] at hlk
    refine ⟨d, hok, f1, f2, f3, f4, f5, ?_⟩
    by_cases htx : d.device_type = "Transmitter"
    · rw [if_pos htx]
      rw [if_pos htx, Prod.mk.injEq] at hlk
      exact ⟨hlk.1, hlk.2⟩
    · rw [if_neg htx]
      rw [if_neg htx, Prod.mk.injEq] at hlk
      exact ⟨hlk.1, hlk.2⟩
  · intro js ss ii n hmiss
    have hall : ∀ dj ∈ js, dj.trueName = n → NHD2.outcome ss ii dj = none := by
      intro dj hm he
      rcases hmiss with h | h | h
      · have hne := List.find?_eq_none.mp h dj hm
        simp [he] at hne
      · unfold NHD2.outcome
        rw [he, h]
      · unfold NHD2.outcome
        rw [he, h]
        cases ss.find? (fun x => x.name = n) <;> rfl
    have hp := NHD2.buildFold_preserved ss ii js n hall ([], [])
    simpa [NHD2.build_device_collections, lookupS] using hp

/-- C3 (witness): a complete receiver record set yields a device for
`"RX1"` in one of the two output collections; with status and info
lists empty the same identity record contributes nothing. -/
theorem c3_strict_inner_join_witness :
    ((lookupS (NHD2.build_device_collections
        [{ aliasName := "rx", trueName := "RX1", deviceType := "Receiver", ip := "1",
           online := true, sequence := 1 }]
        [{ name := "RX1" }]
        [{ name := "RX1", mac := "m", gateway := "g", netmask := "n", version := "v",
           edid := "e", ip_mode := "dhcp" }]).1 "RX1").isSome = true ∨
     (lookupS (NHD2.build_device_collections
        [{ aliasName := "rx", trueName := "RX1", deviceType := "Receiver", ip := "1",
           online := true, sequence := 1 }]
        [{ name := "RX1" }]
        [{ name := "RX1", mac := "m", gateway := "g", netmask := "n", version := "v",
           edid := "e", ip_mode := "dhcp" }]).2 "RX1").isSome = true) ∧
    lookupS (NHD2.build_device_collections
        [{ aliasName := "rx", trueName := "RX1", deviceType := "Receiver", ip := "1",
           online := true, sequence := 1 }] [] []).1 "RX1" = none ∧
    lookupS (NHD2.build_device_collections
        [{ aliasName := "rx", trueName := "RX1", deviceType := "Receiver", ip := "1",
           online := true, sequence := 1 }] [] []).2 "RX1" = none := by
  have h2 := c3_strict_inner_join.2
    [{ aliasName := "rx", trueName := "RX1", deviceType := "Receiver", ip := "1",
       online := true, sequence := 1 }] [] [] "RX1" (Or.inr (Or.inl rfl))
  refine ⟨?_, h2.1, h2.2⟩
  obtain ⟨d, -, -, -, -, -, -, hd⟩ := c3_strict_inner_join.1
    [{ aliasName := "rx", trueName := "RX1", deviceType := "Receiver", ip := "1",
       online := true, sequence := 1 }]
    [{ name := "RX1" }]
    [{ name := "RX1", mac := "m", gateway := "g", netmask := "n", version := "v",
       edid := "e", ip_mode := "dhcp" }] "RX1"
    { aliasName := "rx", trueName := "RX1", deviceType := "Receiver", ip := "1",
      online := true, sequence := 1 }
    { name := "RX1" }
    { name := "RX1", mac := "m", gateway := "g", netmask := "n", version := "v",
      edid := "e", ip_mode := "dhcp" }
    (by decide) (by decide) (by decide) (by decide) (Or.inl (by decide))
  by_cases htx : d.device_type = "Transmitter"
  · rw [if_pos htx] at hd
    exact Or.inl (by simp [hd.1])
  · rw [if_neg htx] at hd
    exact Or.inr (by simp [hd.2])

/-- C4: in the second-generation merge, the factory selects the
merged-device variant by comparing the device type case-insensitively
against "receiver"/"transmitter" (any casing of "receiver" builds the
receiver variant, any casing of "transmitter" the transmitter variant),
and a record whose device type matches neither is skipped entirely by
`build_device_collections`: it appears in neither output collection —
it is not defaulted to the receiver role. -/
theorem c4_case_insensitive_dispatch_and_unknown_skip :
    (∀ (dj : NHD2.DeviceJsonString) (ds : NHD2.DeviceStatus) (di : NHD2.DeviceInfo),
      strToLower dj.deviceType = "receiver" →
      ∃ b f, NHD2.create_device_from_wyrestorm_models dj ds di
        = .ok (NHD2.Device.rx b f)) ∧
    (∀ (dj : NHD2.DeviceJsonString) (ds : NHD2.DeviceStatus) (di : NHD2.DeviceInfo),
      strToLower dj.deviceType = "transmitter" →
      ∃ b f, NHD2.create_device_from_wyrestorm_models dj ds di
        = .ok (NHD2.Device.tx b f)) ∧
    (∀ (js : List NHD2.DeviceJsonString) (ss : List NHD2.DeviceStatus)
        (ii : List NHD2.DeviceInfo) (n : String),
      (∀ dj ∈ js, dj.trueName = n →
        strToLower dj.deviceType ≠ "receiver" ∧ strToLower dj.deviceType ≠ "transmitter") →
      lookupS (NHD2.build_device_collections js ss ii).1 n = none ∧
      lookupS (NHD2.build_device_collections js ss ii).2 n = none) := by
  refine ⟨NHD2.create_receiver_variant, NHD2.create_transmitter_variant, ?_⟩
  intro js ss ii n h
  have hall : ∀ dj ∈ js, dj.trueName = n → NHD2.outcome ss ii dj = none := fun dj hm he =>
    NHD2.outcome_unknown_type ss ii dj (h dj hm he).1 (h dj hm he).2
  have hp := NHD2.buildFold_preserved ss ii js n hall ([], [])
  simpa [NHD2.build_device_collections, lookupS] using hp

/-- C4 (witness): `"RECEIVER"` (upper-case) builds the receiver
variant, and a `"Gadget"`-typed record present with matching status and
info lands in neither collection. -/
theorem c4_case_insensitive_dispatch_witness :
    (∃ b f, NHD2.create_device_from_wyrestorm_models
        { aliasName := "r", trueName := "R1", deviceType := "RECEIVER", ip := "1",
          online := true, sequence := 1 }
        { name := "R1" }
        { name := "R1", mac := "m", gateway := "g", netmask := "n", version := "v",
          edid := "e", ip_mode := "dhcp" }
      = .ok (NHD2.Device.rx b f)) ∧
    lookupS (NHD2.build_device_collections
        [{ aliasName := "g", trueName := "G1", deviceType := "Gadget", ip := "1",
           online := true, sequence := 1 }]
        [{ name := "G1" }]
        [{ name := "G1", mac := "m", gateway := "g", netmask := "n", version := "v",
           edid := "e", ip_mode := "dhcp" }]).1 "G1" = none ∧
    lookupS (NHD2.build_device_collections
        [{ aliasName := "g", trueName := "G1", deviceType := "Gadget", ip := "1",
           online := true, sequence := 1 }]
        [{ name := "G1" }]
        [{ name := "G1", mac := "m", gateway := "g", netmask := "n", version := "v",
           edid := "e", ip_mode := "dhcp" }]).2 "G1" = none := by
  refine ⟨c4_case_insensitive_dispatch_and_unknown_skip.1 _ _ _ (by decide), ?_⟩
  exact c4_case_insensitive_dispatch_and_unknown_skip.2.2
    [{ aliasName := "g", trueName := "G1", deviceType := "Gadget", ip := "1",
       online := true, sequence := 1 }]
    [{ name := "G1" }]
    [{ name := "G1", mac := "m", gateway := "g", netmask := "n", version := "v",
       edid := "e", ip_mode := "dhcp" }] "G1"
    (fun dj hm he => by
      have hdj := List.mem_singleton.mp hm
      subst hdj
      exact ⟨by decide, by decide⟩)

/-- C5: within one fetch, the last assignment in list order for a given
receiver wins.  For the second-generation `process_matrix_assignments`,
the produced mapping sends the receiver to the `tx` of the last
assignment whose `rx` names it; for the first-generation matrix loop,
the receiver's `current_source` ends as that same `tx` (all other
fields untouched). -/
theorem c5_last_assignment_wins (assignments : List NHD2.MatrixAssignment)
    (A : String) (a : NHD2.MatrixAssignment)
    (hlast : assignments.reverse.find? (fun x => x.rx = A) = some a) :
    lookupS (NHD2.process_matrix_assignments (some assignments)) A = some a.tx ∧
    (∀ (devs : List (String × NHD1.ProcessedDevice)) (d : NHD1.ProcessedDevice),
      lookupS devs A = some d →
      lookupS (NHD1.applyMatrixToDevices devs assignments) A
        = some { d with current_source := some a.tx }) := by
  constructor
  · have h := NHD1.lookupS_foldl_assign assignments [] A
    simp only [NHD2.process_matrix_assignments]
    rw [h, hlast]
  · intro devs d hd
    exact NHD1.applyMatrix_last_wins assignments A a hlast devs d hd

/-- C5 (witness): for `[(rx=A, tx=X), (rx=A, tx=Y)]`, receiver `A` ends
with source `Y` in both generations. -/
theorem c5_last_assignment_wins_witness :
    lookupS (NHD2.process_matrix_assignments
      (some [{ tx := "X", rx := "A" }, { tx := "Y", rx := "A" }])) "A" = some "Y" ∧
    lookupS (NHD1.applyMatrixToDevices [("A", NHD1.mkProcessedDevice "A" none none)]
        [{ tx := "X", rx := "A" }, { tx := "Y", rx := "A" }]) "A"
      = some { NHD1.mkProcessedDevice "A" none none with current_source := some "Y" } := by
  have h := c5_last_assignment_wins
    [{ tx := "X", rx := "A" }, { tx := "Y", rx := "A" }] "A"
    { tx := "Y", rx := "A" } (by decide)
  exact ⟨h.1, h.2 [("A", NHD1.mkProcessedDevice "A" none none)] _ rfl⟩


/-- C6 (counterexample): a successful `set_power` call on a known
receiver DOES initiate a refresh of the coordinator's data — its trace
ends with `async_request_refresh` (line 257) — refuting the claim that
the power operation leaves the snapshot fetch schedule untouched. -/
theorem c6_counterexample :
    NHD2.set_power
        (some { device_transmitters := []
                device_receivers := [("rx1", NHD2.Device.rx
                  { alias_name := "rx1", true_name := "rx1", device_type := "Receiver",
                    ip := "1.2.3.4", online := true, sequence := 1, mac := "m",
                    gateway := "g", netmask := "n", version := "v", edid := "e",
                    ip_mode := "dhcp" } {})]
                matrix_assignments := [] })
        ["rx1"] "on"
      = ([NHD2.Effect.sinkPower "on" "rx1", NHD2.Effect.requestRefresh], none) ∧
    NHD2.Effect.requestRefresh ∈ (NHD2.set_power
        (some { device_transmitters := []
                device_receivers := [("rx1", NHD2.Device.rx
                  { alias_name := "rx1", true_name := "rx1", device_type := "Receiver",
                    ip := "1.2.3.4", online := true, sequence := 1, mac := "m",
                    gateway := "g", netmask := "n", version := "v", edid := "e",
                    ip_mode := "dhcp" } {})]
                matrix_assignments := [] })
        ["rx1"] "on").1 := by
  decide

/-- C6 (amended): every `set_power` call that completes without raising
(valid power state, all devices validated) performs exactly one sink
power command per device and then requests a coordinator refresh
(`async_request_refresh`) — the snapshot fetch is re-triggered, not
left untouched. -/
theorem c6_set_power_requests_refresh (data : Option NHD2.CoordinatorData)
    (devices : List String) (power_state : String)
    (hok : (NHD2.set_power data devices power_state).2 = none) :
    (NHD2.set_power data devices power_state).1
      = devices.map (fun device => NHD2.Effect.sinkPower power_state device)
        ++ [NHD2.Effect.requestRefresh] := by
  simp only [NHD2.set_power] at hok ⊢
  by_cases hp : power_state ∉ ["on", "off"]
  · rw [if_pos hp] at hok
    simp at hok
  · rw [if_neg hp] at hok ⊢
    cases hv : NHD2.set_power_validation_error data devices with
    | some e =>
      rw [hv] at hok
      simp at hok
    | none => rfl

/-- C6 (witness): with no snapshot yet, `set_power none ["rx1"] "on"`
completes and its trace is the sink-power command followed by the
refresh request. -/
theorem c6_set_power_requests_refresh_witness :
    (NHD2.set_power none ["rx1"] "on").1
      = [NHD2.Effect.sinkPower "on" "rx1", NHD2.Effect.requestRefresh] := by
  have h := c6_set_power_requests_refresh none ["rx1"] "on" rfl
  simpa using h

/-- C7: with a snapshot present, calling `set_power` with a device name
absent from the snapshot (neither a receiver nor a transmitter key)
raises a validation error with NO transport command issued (empty
effect trace); and calling it with a power state other than
`"on"`/`"off"` likewise raises before any transport call. -/
theorem c7_set_power_validation (d : NHD2.CoordinatorData) (devices : List String)
    (power_state : String) :
    ((∃ dev ∈ devices, lookupS d.device_receivers dev = none ∧
        lookupS d.device_transmitters dev = none) →
      (NHD2.set_power (some d) devices power_state).1 = [] ∧
      ((NHD2.set_power (some d) devices power_state).2).isSome = true) ∧
    (power_state ∉ ["on", "off"] →
      (NHD2.set_power (some d) devices power_state).1 = [] ∧
      ((NHD2.set_power (some d) devices power_state).2).isSome = true) := by
  constructor
  · rintro ⟨dev, hmem, hrx, _htx⟩
    simp only [NHD2.set_power]
    by_cases hp : power_state ∉ ["on", "off"]
    · rw [if_pos hp]
      exact ⟨rfl, rfl⟩
    · rw [if_neg hp]
      have hfind : (devices.find?
          (fun device => (lookupS d.device_receivers device).isNone)).isSome :=
        List.find?_isSome.mpr ⟨dev, hmem, by simp [hrx]⟩
      obtain ⟨bad, hbad⟩ := Option.isSome_iff_exists.mp hfind
      have hv : NHD2.set_power_validation_error (some d) devices
          = some ("Device " ++ bad ++ " not found or does not support power control") := by
        simp only [NHD2.set_power_validation_error, hbad]
      rw [hv]
      exact ⟨rfl, rfl⟩
  · intro hp
    simp only [NHD2.set_power]
    rw [if_pos hp]
    exact ⟨rfl, rfl⟩

/-- C7 (witness): against a snapshot with no devices, `set_power` for
the unknown device `"ghost"` produces no effects and an error, and so
does `set_power` for the power state `"sideways"`. -/
theorem c7_set_power_validation_witness :
    ((NHD2.set_power
        (some { device_transmitters := []
                device_receivers := []
                matrix_assignments := [] }) ["ghost"] "on").1 = [] ∧
      ((NHD2.set_power
        (some { device_transmitters := []
                device_receivers := []
                matrix_assignments := [] }) ["ghost"] "on").2).isSome = true) ∧
    ((NHD2.set_power
        (some { device_transmitters := []
                device_receivers := []
                matrix_assignments := [] }) ["rx1"] "sideways").1 = [] ∧
      ((NHD2.set_power
        (some { device_transmitters := []
                device_receivers := []
                matrix_assignments := [] }) ["rx1"] "sideways").2).isSome = true) := by
  constructor
  · exact (c7_set_power_validation
      { device_transmitters := [], device_receivers := [], matrix_assignments := [] }
      ["ghost"] "on").1 ⟨"ghost", by decide, rfl, rfl⟩
  · exact (c7_set_power_validation
      { device_transmitters := [], device_receivers := [], matrix_assignments := [] }
      ["rx1"] "sideways").2 (by decide)

/-- C8: for any snapshot and any endpoint notification from which a
non-empty id of a known device and an online value are extracted, the
endpoint handler updates exactly that device's `online` field: the
published snapshot equals the old one with only that device's entry
replaced by a copy whose `online` is the extracted value; the updated
entry differs only in `online` (the record-update form), every other
device's entry is unchanged, every other snapshot field is unchanged,
and the result remains readable (`is_ready`, `get_device_info`,
`has_errors` behave as before). -/
theorem c8_endpoint_patch_isolation (d : NHD1.CoordData) (n : NHD1.Notification)
    (device_id : String) (b : Bool) (dev : NHD1.ProcessedDevice)
    (hid : NHD1.extract_device_id_from_notification n = some device_id)
    (hne : device_id ≠ "")
    (hon : NHD1.extract_online_status_from_notification n = some b)
    (hdev : lookupS d.devices device_id = some dev) :
    NHD1.handle_endpoint_notification (some d) n
      = some { d with devices := upsert device_id { dev with online := b } d.devices } ∧
    lookupS (upsert device_id { dev with online := b } d.devices) device_id
      = some { dev with online := b } ∧
    (∀ other, other ≠ device_id →
      lookupS (upsert device_id { dev with online := b } d.devices) other
        = lookupS d.devices other) ∧
    ({ d with devices := upsert device_id { dev with online := b } d.devices }).matrix
      = d.matrix ∧
    ({ d with devices := upsert device_id { dev with online := b } d.devices }).device_status
      = d.device_status ∧
    ({ d with devices := upsert device_id { dev with online := b } d.devices }).error
      = d.error ∧
    NHD1.is_ready (NHD1.handle_endpoint_notification (some d) n) = true ∧
    NHD1.get_device_info (NHD1.handle_endpoint_notification (some d) n) device_id
      = some { dev with online := b } ∧
    NHD1.has_errors (NHD1.handle_endpoint_notification (some d) n)
      = NHD1.has_errors (some d) := by
  have hred : NHD1.handle_endpoint_notification (some d) n
      = some { d with devices := upsert device_id { dev with online := b } d.devices } := by
    simp [NHD1.handle_endpoint_notification, hid, hon, hne, hdev]
  refine ⟨hred, lookupS_upsert_self _ _ _,
    fun other ho => lookupS_upsert_ne _ _ _ _ ho, rfl, rfl, rfl, ?_, ?_, ?_⟩
  · rw [hred]
    rfl
  · rw [hred]
    simp only [NHD1.get_device_info]
    exact lookupS_upsert_self _ _ _
  · rw [hred]
    rfl

/-- C8 (witness): a mapping-style endpoint notification
`{device_id: "rx1", online: false}` against a one-device snapshot flips
only `rx1.online` and the accessors read the patched entry. -/
theorem c8_endpoint_patch_isolation_witness :
    NHD1.get_device_info
      (NHD1.handle_endpoint_notification
        (some { devices := [("rx1", NHD1.mkProcessedDevice "rx1" none none)],
                matrix := none, device_status := none, hasLastUpdate := true,
                error := none })
        (.dict (some "rx1") none none (some false) none)) "rx1"
      = some { NHD1.mkProcessedDevice "rx1" none none with online := false } := by
  have h := c8_endpoint_patch_isolation
    { devices := [("rx1", NHD1.mkProcessedDevice "rx1" none none)],
      matrix := none, device_status := none, hasLastUpdate := true, error := none }
    (.dict (some "rx1") none none (some false) none)
    "rx1" false (NHD1.mkProcessedDevice "rx1" none none)
    rfl (by decide) rfl (by simp [lookupS])
  exact h.2.2.2.2.2.2.2.1

/-- C9 (counterexample): an attribute-style payload with a
present-but-null `device_id` attribute and a non-null `device`
attribute makes `_extract_device_id_from_notification` return `None` —
the null-valued earlier candidate DOES prevent the later candidate
`"rx1"` from being returned; likewise a present-but-null `online`
attribute hides a usable `status` attribute from
`_extract_online_status_from_notification`.  This refutes the claimed
first-non-null contract. -/
theorem c9_counterexample :
    NHD1.extract_device_id_from_notification
      (.obj (some none) (some (some "rx1")) none none) = none ∧
    NHD1.extract_online_status_from_notification
      (.obj none none (some none) (some (some "online"))) = none := by
  decide

/-- C9 (amended): the extraction helpers inspect only the FIRST present
attribute for attribute-style payloads — its value is returned even
when null, and later candidates are not consulted; a payload with
neither attribute yields `None`.  For mapping payloads, the id helper
chains the lookups with Python `or`, so a null earlier key falls
through to later keys (first non-null wins, provided no candidate holds
the falsy empty string); the online helper returns the `"online"` key
when non-null and otherwise compares the `"status"` key to
`"online"`. -/
theorem c9_extraction_contract :
    (∀ (v : Option String) (dv : Option (Option String)) (ol : Option (Option Bool))
        (st : Option (Option String)),
      NHD1.extract_device_id_from_notification (.obj (some v) dv ol st) = v) ∧
    (∀ (v : Option String) (ol : Option (Option Bool)) (st : Option (Option String)),
      NHD1.extract_device_id_from_notification (.obj none (some v) ol st) = v) ∧
    (∀ (ol : Option (Option Bool)) (st : Option (Option String)),
      NHD1.extract_device_id_from_notification (.obj none none ol st) = none) ∧
    (∀ (a b c : Option String) (ol : Option Bool) (st : Option (Option String)),
      a ≠ some "" → b ≠ some "" →
      NHD1.extract_device_id_from_notification (.dict a b c ol st) = (a.or b).or c) ∧
    (∀ (d1 d2 : Option (Option String)) (v : Option Bool) (st : Option (Option String)),
      NHD1.extract_online_status_from_notification (.obj d1 d2 (some v) st) = v) ∧
    (∀ (d1 d2 : Option (Option String)) (s : Option String),
      NHD1.extract_online_status_from_notification (.obj d1 d2 none (some s))
        = s.map (fun x => x == "online")) ∧
    (∀ (a b c : Option String) (b0 : Bool) (st : Option (Option String)),
      NHD1.extract_online_status_from_notification (.dict a b c (some b0) st)
        = some b0) ∧
    (∀ (a b c : Option String) (v : Option String),
      NHD1.extract_online_status_from_notification (.dict a b c none (some v))
        = v.map (fun x => x == "online")) := by
  refine ⟨fun v dv ol st => rfl, fun v ol st => rfl, fun ol st => rfl, ?_,
    fun d1 d2 v st => rfl, fun d1 d2 s => rfl, fun a b c b0 st => rfl,
    fun a b c v => rfl⟩
  intro a b c ol st ha hb
  show NHD1.pyOr (NHD1.pyOr a b) c = (a.or b).or c
  rw [pyOr_eq_or a b ha]
  have hab : a.or b ≠ some "" := by
    cases a with
    | none => simpa using hb
    | some s => simpa using ha
  rw [pyOr_eq_or _ c hab]

/-- C9 (witness): for a mapping payload with no `device_id` key and
`device = "rx2"`, the helper returns `"rx2"` (the first non-null
candidate). -/
theorem c9_extraction_contract_witness :
    NHD1.extract_device_id_from_notification
      (.dict none (some "rx2") (some "rx3") none none) = some "rx2" := by
  have h := c9_extraction_contract.2.2.2.1 none (some "rx2") (some "rx3") none none
    (by decide) (by decide)
  simpa using h

/-- C10: for every identity record whose `deviceType` lowercases to
"transmitter" but is not exactly `"Transmitter"`, with matching status
and info records present (and no duplicate identity names), the factory
builds the transmitter variant, yet `build_device_collections` stores
the created device in the RECEIVERS collection and not in the
transmitters collection, because its role dispatch compares
`device_type` case-sensitively against `"Transmitter"`. -/
theorem c10_lowercase_transmitter_stored_as_receiver
    (js : List NHD2.DeviceJsonString) (ss : List NHD2.DeviceStatus)
    (ii : List NHD2.DeviceInfo) (dj : NHD2.DeviceJsonString)
    (ds : NHD2.DeviceStatus) (di : NHD2.DeviceInfo)
    (hnd : (js.map (fun x => x.trueName)).Nodup)
    (hj : js.find? (fun x => x.trueName = dj.trueName) = some dj)
    (hs : ss.find? (fun x => x.name = dj.trueName) = some ds)
    (hi : ii.find? (fun x => x.name = dj.trueName) = some di)
    (hlow : strToLower dj.deviceType = "transmitter")
    (hcase : dj.deviceType ≠ "Transmitter") :
    (∃ b f, NHD2.create_device_from_wyrestorm_models dj ds di
      = .ok (NHD2.Device.tx b f)) ∧
    (∃ d, NHD2.create_device_from_wyrestorm_models dj ds di = .ok d ∧
      lookupS (NHD2.build_device_collections js ss ii).2 dj.trueName = some d ∧
      lookupS (NHD2.build_device_collections js ss ii).1 dj.trueName = none) := by
  obtain ⟨b, f, hok⟩ := NHD2.create_transmitter_variant dj ds di hlow
  refine ⟨⟨b, f, hok⟩, NHD2.Device.tx b f, hok, ?_⟩
  have ho : NHD2.outcome ss ii dj = some (NHD2.Device.tx b f) := by
    unfold NHD2.outcome
    rw [hs, hi]
    show (NHD2.create_device_from_wyrestorm_models dj ds di).toOption
      = some (NHD2.Device.tx b f)
    rw [hok]
    rfl
  have htype : (NHD2.Device.tx b f).device_type = dj.deviceType :=
    NHD2.create_ok_device_type dj ds di _ hok
  have htx : ¬ (NHD2.Device.tx b f).device_type = "Transmitter" := by
    rw [htype]
    exact hcase
  have hlk := NHD2.build_lookup ss ii js dj.trueName hnd ([], [])
  rw [hj] at hlk
  simp only [ho, lookupS] at hlk
  rw [if_neg htx, Prod.mk.injEq] at hlk
  exact ⟨hlk.2, hlk.1⟩

/-- C10 (witness): the concrete lowercase `"transmitter"` record lands
in the receivers collection, and the transmitters collection stays
empty. -/
theorem c10_lowercase_transmitter_stored_as_receiver_witness :
    (∃ d, NHD2.create_device_from_wyrestorm_models
        { aliasName := "t", trueName := "T1", deviceType := "transmitter", ip := "1",
          online := true, sequence := 1 }
        { name := "T1" }
        { name := "T1", mac := "m", gateway := "g", netmask := "n", version := "v",
          edid := "e", ip_mode := "dhcp" } = .ok d ∧
      lookupS (NHD2.build_device_collections
          [{ aliasName := "t", trueName := "T1", deviceType := "transmitter", ip := "1",
             online := true, sequence := 1 }]
          [{ name := "T1" }]
          [{ name := "T1", mac := "m", gateway := "g", netmask := "n", version := "v",
             edid := "e", ip_mode := "dhcp" }]).2 "T1" = some d ∧
      lookupS (NHD2.build_device_collections
          [{ aliasName := "t", trueName := "T1", deviceType := "transmitter", ip := "1",
             online := true, sequence := 1 }]
          [{ name := "T1" }]
          [{ name := "T1", mac := "m", gateway := "g", netmask := "n", version := "v",
             edid := "e", ip_mode := "dhcp" }]).1 "T1" = none) := by
  exact (c10_lowercase_transmitter_stored_as_receiver
    [{ aliasName := "t", trueName := "T1", deviceType := "transmitter", ip := "1",
       online := true, sequence := 1 }]
    [{ name := "T1" }]
    [{ name := "T1", mac := "m", gateway := "g", netmask := "n", version := "v",
       edid := "e", ip_mode := "dhcp" }]
    { aliasName := "t", trueName := "T1", deviceType := "transmitter", ip := "1",
      online := true, sequence := 1 }
    { name := "T1" }
    { name := "T1", mac := "m", gateway := "g", netmask := "n", version := "v",
      edid := "e", ip_mode := "dhcp" }
    (by decide) (by decide) (by decide) (by decide) (by decide) (by decide)).2

end WyreStorm

